import Mathlib

/-!
Verification of the sanctify-ai-proxy server core: a shallow embedding of
the in-memory rate limiter (`checkRateLimit` and the hourly cleanup task)
and of the intent-classification block of the `/ai/chat` handler, together
with theorems settling the specified properties.

Timestamps are natural numbers of milliseconds, as produced by `Date.now()`.
-/

/-- Rate limiting configuration object `RATE_LIMITS` (part_001 lines 21-26). -/
structure RateLimits where
  windowMs : Nat
  maxRequests : Nat
  dailyLimit : Nat
  dailyCostLimit : Nat
deriving DecidableEq

/-- The configured limits: 20 requests per 2-minute window, 75 requests per
day, 700 cents of estimated cost per day. -/
def RATE_LIMITS : RateLimits :=
  { windowMs := 2 * 60 * 1000
    maxRequests := 20
    dailyLimit := 75
    dailyCostLimit := 700 }

/-- Milliseconds in a day, the daily window size (`24 * 60 * 60 * 1000`, line 37). -/
def dayMs : Nat := 24 * 60 * 60 * 1000

/-- Milliseconds in an hour, the cleanup retention (`60 * 60 * 1000`, line 114). -/
def hourMs : Nat := 60 * 60 * 1000

/-- Estimated cost charged per accepted request, in cents (`estimatedCost = 9`, line 88). -/
def estimatedCost : Nat := 9

/-- The entry one caller has in `rateLimitStore` (lines 40-46). -/
structure UserData where
  windowStart : Nat
  requests : Nat
  dailyStart : Nat
  dailyRequests : Nat
  dailyCost : Nat
deriving DecidableEq

/-- The default record used on the first request of a caller (lines 40-46). -/
def zeroUserData : UserData :=
  { windowStart := 0, requests := 0, dailyStart := 0, dailyRequests := 0, dailyCost := 0 }

/-- The in-memory `rateLimitStore` Map, as a finite map from keys to records. -/
abbrev Store := String → Option UserData

/-- The store at process start: empty. -/
def emptyStore : Store := fun _ => none

/-- Map update, modelling `rateLimitStore.set(key, value)`. -/
def setStore (s : Store) (k : String) (v : UserData) : Store :=
  fun q => if q = k then some v else s q

/-- `userId` with fallback to the shared bucket named anonymous (line 39): an empty caller id
falls back to the shared anonymous bucket. -/
def userKey (userId : String) : String :=
  if userId = "" then "anonymous" else userId

/-- `Math.floor(now / RATE_LIMITS.windowMs) * RATE_LIMITS.windowMs` (line 36). -/
def alignedWindowStart (now : Nat) : Nat :=
  now / RATE_LIMITS.windowMs * RATE_LIMITS.windowMs

/-- `Math.floor(now / 86400000) * 86400000` (line 37). -/
def alignedDailyStart (now : Nat) : Nat :=
  now / dayMs * dayMs

/-- Window and day rollover (lines 48-59): if the computed window start is
newer than the stored one, the burst counter resets; if the computed daily
start is newer, both daily counters reset. -/
def rollover (now : Nat) (ud : UserData) : UserData :=
  let ud1 :=
    if alignedWindowStart now > ud.windowStart then
      { ud with windowStart := alignedWindowStart now, requests := 0 }
    else ud
  if alignedDailyStart now > ud1.dailyStart then
    { ud1 with dailyStart := alignedDailyStart now, dailyRequests := 0, dailyCost := 0 }
  else ud1

/-- The decision object returned by `checkRateLimit`: `allowed: true`, or one
of the three rejections (burst with `retryAfter` seconds, daily request
limit, daily cost limit), distinguished in the source by their flags and
error messages (lines 66-96, 108). -/
inductive Decision where
  | allowed
  | burstLimit (retryAfter : Nat)
  | dailyRequestLimit
  | dailyCostLimit
deriving DecidableEq

/-- The three limit checks (lines 65-96), evaluated on the rolled-over
record, in source order: burst window first, then daily request count, then
daily cost. `Math.ceil(x / 1000)` on a positive millisecond quantity `x` is
`(x + 999) / 1000` in natural division (line 67). -/
def checkLimits (now : Nat) (ud : UserData) : Decision :=
  if ud.requests ≥ RATE_LIMITS.maxRequests then
    Decision.burstLimit ((alignedWindowStart now + RATE_LIMITS.windowMs - now + 999) / 1000)
  else if ud.dailyRequests ≥ RATE_LIMITS.dailyLimit then
    Decision.dailyRequestLimit
  else if ud.dailyCost + estimatedCost > RATE_LIMITS.dailyCostLimit then
    Decision.dailyCostLimit
  else
    Decision.allowed

/-- Counter increments performed on the accept path (lines 98-101). -/
def acceptUpdate (ud : UserData) : UserData :=
  { ud with
    requests := ud.requests + 1
    dailyRequests := ud.dailyRequests + 1
    dailyCost := ud.dailyCost + estimatedCost }

/-- `checkRateLimit(userId)` evaluated at time `now` (lines 34-109).

The JS function mutates the record obtained from the Map in place, so the
window/day rollover is persisted for a record that already existed even when
the request is rejected; the explicit `rateLimitStore.set` happens only on
the accept path, which is what inserts the record of a first-time caller. A
rejected request of a first-time caller (impossible in practice, since the
fresh record passes every check) would leave the store unchanged. -/
def checkRateLimit (store : Store) (userId : String) (now : Nat) : Decision × Store :=
  match checkLimits now (rollover now ((store (userKey userId)).getD zeroUserData)) with
  | Decision.allowed =>
      (Decision.allowed,
        setStore store (userKey userId)
          (acceptUpdate (rollover now ((store (userKey userId)).getD zeroUserData))))
  | d =>
      (d,
        if (store (userKey userId)).isSome then
          setStore store (userKey userId)
            (rollover now ((store (userKey userId)).getD zeroUserData))
        else store)

/-- The hourly cleanup task body (lines 112-125): removes every record whose
`windowStart` and `dailyStart` are both older than `now - hourMs`. In JS
`oneHourAgo` can be negative while timestamps are nonnegative, which makes
both comparisons false, exactly as truncated subtraction does here. -/
def cleanup (store : Store) (now : Nat) : Store := fun k =>
  match store k with
  | some ud =>
      if ud.windowStart < now - hourMs ∧ ud.dailyStart < now - hourMs then none
      else some ud
  | none => none

/-- An event acting on the shared `rateLimitStore`: a rate-limited request
evaluation, or a run of the hourly cleanup task. -/
inductive Event where
  | request (userId : String) (now : Nat)
  | sweep (now : Nat)
deriving DecidableEq

/-- The timestamp at which an event occurs. -/
def Event.time : Event → Nat
  | Event.request _ now => now
  | Event.sweep now => now

/-- The effect of one event on the store. -/
def stepStore (s : Store) : Event → Store
  | Event.request uid now => (checkRateLimit s uid now).snd
  | Event.sweep now => cleanup s now

/-- The store after a sequence of events. -/
def runTrace (s : Store) : List Event → Store
  | [] => s
  | e :: es => runTrace (stepStore s e) es

/-- Event times are nondecreasing and bounded below by `t`, as `Date.now()`
readings along one execution are. -/
def monotimes : Nat → List Event → Bool
  | _, [] => true
  | t, e :: es => decide (t ≤ e.time) && monotimes e.time es

/-- Every event in the list occurs no later than `T`. -/
def withinTime (T : Nat) (es : List Event) : Bool :=
  es.all fun e => decide (e.time ≤ T)

/-- The time of the last event, or `t` for an empty list. -/
def lastTime (t : Nat) : List Event → Nat
  | [] => t
  | e :: es => lastTime e.time es

/-- The number of requests in the trace that are made under key `k`, whose
computed short-window start is `w`, and that `checkRateLimit` accepts,
starting from store `s`. -/
def acceptsInWindow (k : String) (w : Nat) (s : Store) : List Event → Nat
  | [] => 0
  | Event.request uid now :: es =>
      (if userKey uid = k ∧ alignedWindowStart now = w ∧
          (checkRateLimit s uid now).fst = Decision.allowed then 1 else 0)
      + acceptsInWindow k w (stepStore s (Event.request uid now)) es
  | Event.sweep now :: es => acceptsInWindow k w (cleanup s now) es

/-- The number of requests in the trace made under key `k`, with computed
daily-window start `d`, that `checkRateLimit` accepts, starting from `s`. -/
def acceptsInDay (k : String) (d : Nat) (s : Store) : List Event → Nat
  | [] => 0
  | Event.request uid now :: es =>
      (if userKey uid = k ∧ alignedDailyStart now = d ∧
          (checkRateLimit s uid now).fst = Decision.allowed then 1 else 0)
      + acceptsInDay k d (stepStore s (Event.request uid now)) es
  | Event.sweep now :: es => acceptsInDay k d (cleanup s now) es

/-- The burst count a store records for key `k` in window `w`: the stored
`requests` when the stored `windowStart` is `w`, else zero. -/
def windowCount (s : Store) (k : String) (w : Nat) : Nat :=
  match s k with
  | some ud => if ud.windowStart = w then ud.requests else 0
  | none => 0

/-- Well-formedness of store records reachable from the empty store: burst
counters never exceed the short-window limit, and window starts are aligned
timestamps no later than `t`. -/
def GoodStore (t : Nat) (s : Store) : Prop :=
  ∀ k ud, s k = some ud →
    ud.requests ≤ RATE_LIMITS.maxRequests ∧
    ud.windowStart % RATE_LIMITS.windowMs = 0 ∧
    ud.windowStart ≤ t

/-- Prefix test on character lists: `leadsChars pat s` holds when `pat`
begins `s`. Auxiliary for substring containment. -/
def leadsChars : List Char → List Char → Bool
  | [], _ => true
  | _ :: _, [] => false
  | a :: as, b :: bs => a == b && leadsChars as bs

/-- Substring search on character lists: `occursIn pat s` holds when `pat`
occurs contiguously inside `s` (the empty pattern always occurs). -/
def occursIn (pat : List Char) : List Char → Bool
  | [] => leadsChars pat []
  | c :: cs => leadsChars pat (c :: cs) || occursIn pat cs

/-- JS `String.prototype.includes`: substring containment. -/
def includes (s pat : String) : Bool :=
  occursIn pat.toList s.toList

/-- ASCII lowercasing of one character, as JS `toLowerCase` acts on the
ASCII range relevant to the keyword lists. -/
def lowerChar (c : Char) : Char :=
  if 65 ≤ c.toNat ∧ c.toNat ≤ 90 then Char.ofNat (c.toNat + 32) else c

/-- `message.toLowerCase()` (line 239), on the ASCII alphabet. -/
def lowerStr (s : String) : String :=
  ⟨s.toList.map lowerChar⟩

/-- `prayerCreationKeywords` (line 218). -/
def prayerCreationKeywords : List String :=
  ["create a prayer", "make a prayer", "write a prayer", "create me a prayer",
   "create me an", "write me a prayer", "make me a prayer", "generate a prayer",
   "help me pray"]

/-- `informationalKeywords` (lines 219-237). -/
def informationalKeywords : List String :=
  ["what is", "what does", "what are", "what will", "what happens", "what happened",
   "who is", "who was", "who are", "where is", "where does", "when did", "when will",
   "how is", "how does", "why is", "why does", "why did",
   "explain", "define", "tell me about", "what\x27s the meaning", "what means",
   "what\x27s the difference", "difference between",
   "where in the bible", "where does the bible", "what verse", "which verse",
   "scripture says", "bible verse about", "biblical", "according to scripture",
   "give me a passage", "give me a verse", "show me a verse", "find me a verse",
   "give me a random", "random verse", "random passage", "any verse", "share a verse",
   "passage from", "verse from", "scripture from", "bible passage about",
   "do my", "does my", "will my", "can my", "do i get", "does god", "will god",
   "is it true", "is there", "are there", "do we go", "will we go", "can we",
   "am i saved", "are we saved", "do good deeds", "does faith", "will jesus"]

/-- `needsHelpIndicators` (lines 257-262). -/
def needsHelpIndicators : List String :=
  ["i need", "i keep", "i cant", "i can\x27t", "i dont", "i don\x27t", "i struggle",
   "i\x27m struggling", "help me", "struggling with", "dealing with", "having trouble",
   "keep falling", "keep failing", "dont know what to do", "don\x27t know what to do",
   "need guidance", "need advice", "need help", "falling into", "addicted to",
   "overcome", "stop doing", "break free", "get rid of"]

/-- `spiritualStruggles` (lines 264-267). -/
def spiritualStruggles : List String :=
  ["sin", "lust", "temptation", "anxiety", "depression", "fear", "worry", "anger",
   "pride", "addiction", "doubt", "faith", "prayer", "bible", "god", "jesus",
   "spiritual", "christian"]

/-- `casualWords` (line 273). -/
def casualWords : List String :=
  ["hi", "hello", "hey", "thanks", "thank you", "ok", "okay", "yes", "no", "good",
   "great", "awesome", "cool", "nice", "wow", "amen", "bless", "ke", "k", "lol", "haha"]

/-- `isPrayerCreationRequest` (lines 242-244): the lower-cased message
contains an explicit prayer-creation phrase. -/
def isPrayerCreationRequest (m : String) : Bool :=
  prayerCreationKeywords.any fun kw => includes (lowerStr m) (lowerStr kw)

/-- `containsPrayer` (line 247). -/
def containsPrayer (m : String) : Bool :=
  includes (lowerStr m) "prayer" || includes (lowerStr m) "pray"

/-- `isNotInformational` (line 248): none of the five
informational-about-prayer exclusion phrases occurs. -/
def isNotInformational (m : String) : Bool :=
  !includes (lowerStr m) "what is prayer" && !includes (lowerStr m) "explain prayer" &&
  !includes (lowerStr m) "define prayer" && !includes (lowerStr m) "what does prayer" &&
  !includes (lowerStr m) "what is pray"

/-- `isPrayerRequest` (line 250). -/
def isPrayerRequest (m : String) : Bool :=
  isPrayerCreationRequest m || (containsPrayer m && isNotInformational m)

/-- `isInformationalRequest` (lines 252-254). -/
def isInformationalRequest (m : String) : Bool :=
  informationalKeywords.any fun kw => includes (lowerStr m) (lowerStr kw)

/-- `indicatesNeedForHelp` (line 269). -/
def indicatesNeedForHelp (m : String) : Bool :=
  needsHelpIndicators.any fun kw => includes (lowerStr m) kw

/-- `isSpiritualContext` (line 270). -/
def isSpiritualContext (m : String) : Bool :=
  spiritualStruggles.any fun kw => includes (lowerStr m) kw

/-- `containsCasualWord` (line 274). -/
def containsCasualWord (m : String) : Bool :=
  casualWords.any fun kw => includes (lowerStr m) kw

/-- `isVeryShortMessage` (line 275): fewer than 6 characters. -/
def isVeryShortMessage (m : String) : Bool :=
  decide ((lowerStr m).length < 6)

/-- `isSingleWord` (line 276): no space and fewer than 8 characters. -/
def isSingleWord (m : String) : Bool :=
  !includes (lowerStr m) " " && decide ((lowerStr m).length < 8)

/-- `isCasualMessage` (line 279). -/
def isCasualMessage (m : String) : Bool :=
  (isVeryShortMessage m || containsCasualWord m || isSingleWord m) &&
  !indicatesNeedForHelp m && !isSpiritualContext m

/-- The four topic labels assigned to `finalTopic` by the classification
block (lines 293-301). -/
inductive Topic where
  | prayer
  | informational
  | conversational
  | practical
deriving DecidableEq

/-- The classification decision cascade (lines 293-301): first match wins in
the order prayer, informational, conversational, practical. -/
def classify (message : String) : Topic :=
  if isPrayerRequest message then Topic.prayer
  else if isInformationalRequest message then Topic.informational
  else if isCasualMessage message then Topic.conversational
  else Topic.practical

/-- The try/catch around the detection block (lines 214-320): a detection
outcome is either the computed topic or an internal fault, and the catch
handler maps any fault to the `conversational` default. -/
def selectTopic (detection : Except String Topic) : Topic :=
  match detection with
  | Except.ok t => t
  | Except.error _ => Topic.conversational

/-- Spec-side restatement of `isPrayerRequest`, following the spec text: an
explicit prayer-creation phrase, or a mention of "prayer"/"pray" while
matching none of the informational-about-prayer exclusion phrases. -/
def isPrayerRequestSpec (m : String) : Bool :=
  prayerCreationKeywords.any (fun kw => includes (lowerStr m) (lowerStr kw)) ||
  ((includes (lowerStr m) "prayer" || includes (lowerStr m) "pray") &&
   !(["what is prayer", "explain prayer", "define prayer", "what does prayer",
      "what is pray"].any fun kw => includes (lowerStr m) kw))

/-- Spec-side restatement of the decision order: `isPrayerRequest` then
`isInformationalRequest` then `isCasualMessage` then the practical default. -/
def classifySpec (m : String) : Topic :=
  if isPrayerRequestSpec m then Topic.prayer
  else if isInformationalRequest m then Topic.informational
  else if isCasualMessage m then Topic.conversational
  else Topic.practical

/-- A store holding one caller `"u"` whose current burst window is
exhausted: 20 requests in window 0, 20 today at cost 180. -/
def store6 : Store := setStore emptyStore "u" ⟨0, 20, 0, 20, 180⟩

/-- A record from today (daily window starting at 0) whose last activity was
early in the day: short window 360000, 75 requests today. -/
def ud7 : UserData := ⟨360000, 5, 0, 75, 675⟩

/-- A store holding `ud7` under key `"u"`. -/
def store7 : Store := setStore emptyStore "u" ud7

/-- A record whose short burst window is still active at time 35999999. -/
def ud7b : UserData := ⟨35880000, 3, 0, 10, 90⟩

/-- A store holding `ud7b` under key `"u"`. -/
def store7b : Store := setStore emptyStore "u" ud7b

/-- A mid-day record with some activity, used to exercise day rollover. -/
def ud5 : UserData := ⟨0, 7, 0, 3, 27⟩

/-- Twenty requests from caller `"u"` at time 0: exactly fills the first
burst window. -/
def c1trace : List Event := List.replicate 20 (Event.request "u" 0)

/-- A single-day scenario: 75 accepted requests in the first 8 minutes of
the day (20 + 20 + 20 + 15 across four burst windows), then the hourly
cleanup task runs at 10:00, then three more requests. -/
def c2trace : List Event :=
  List.replicate 20 (Event.request "u" 0) ++
  List.replicate 20 (Event.request "u" 120000) ++
  List.replicate 20 (Event.request "u" 240000) ++
  List.replicate 15 (Event.request "u" 360000) ++
  [Event.sweep 36000000, Event.request "u" 36000000,
   Event.request "u" 36000000, Event.request "u" 36000000]

/-- C4: the classifier maps the six literal scenario messages of the spec to
exactly the stated labels. -/
theorem classify_literal_scenarios :
    classify "Can you write me a prayer for peace?" = Topic.prayer ∧
    classify "What is prayer?" = Topic.informational ∧
    classify "hey" = Topic.conversational ∧
    classify "I keep struggling with anxiety, what should I do?" = Topic.practical ∧
    classify "What does the Bible say about forgiveness?" = Topic.informational ∧
    classify "" = Topic.conversational := by decide

/-- C2 (code bug evidence): along `c2trace` — a time-ordered single-day
run — the code accepts 78 requests whose daily window is day 0, exceeding
the daily limit of 75 and charging 702 cents against the 700-cent budget,
because the 10:00 cleanup deletes the same-day record of the caller
(`dailyStart = 0 < now - hourMs`) and the daily counters restart at zero. -/
theorem cleanup_breaks_daily_limit :
    monotimes 0 c2trace = true ∧
    acceptsInDay "u" 0 emptyStore c2trace = 78 ∧
    RATE_LIMITS.dailyLimit = 75 ∧
    78 * estimatedCost = 702 ∧
    RATE_LIMITS.dailyCostLimit = 700 := by decide

/-- C9: classification is total with an explicit fallback: a fault in the
detection block is mapped to `conversational` by the catch handler, a
successful detection is passed through unchanged, and the classifier only
ever produces one of the four labels. -/
theorem classification_total_with_fallback :
    (∀ e, selectTopic (Except.error e) = Topic.conversational) ∧
    (∀ m, selectTopic (Except.ok (classify m)) = classify m) ∧
    (∀ m, classify m = Topic.prayer ∨ classify m = Topic.informational ∨
      classify m = Topic.conversational ∨ classify m = Topic.practical) := by
  refine ⟨fun e => rfl, fun m => rfl, fun m => ?_⟩
  simp only [classify]
  split
  · exact Or.inl rfl
  · split
    · exact Or.inr (Or.inl rfl)
    · split
      · exact Or.inr (Or.inr (Or.inl rfl))
      · exact Or.inr (Or.inr (Or.inr rfl))

/-- C3: the classifier refines its specification: the decision cascade
equals the spec-side first-match-wins order, and `isPrayerRequest` agrees
with the spec-side characterization (creation phrase, or "prayer"/"pray"
with none of the exclusion phrases). -/
theorem classify_decision_order (m : String) :
    classify m = classifySpec m ∧ isPrayerRequest m = isPrayerRequestSpec m := by
  have h : isPrayerRequest m = isPrayerRequestSpec m := by
    simp only [isPrayerRequest, isPrayerRequestSpec, isPrayerCreationRequest, containsPrayer,
      isNotInformational, List.any_cons, List.any_nil, Bool.or_false, Bool.not_or,
      Bool.and_assoc, Bool.or_assoc]
  exact ⟨by simp only [classify, classifySpec, h], h⟩

/-- C10 (counterexample): a message containing the casual word "ok", with no
help-seeking phrase and no spiritual term, is nevertheless classified
`informational`, not `conversational`, because informational keyword
matches take precedence over casual detection. -/
theorem casual_substring_not_always_conversational :
    containsCasualWord "what is the weather today? ok" = true ∧
    indicatesNeedForHelp "what is the weather today? ok" = false ∧
    isSpiritualContext "what is the weather today? ok" = false ∧
    classify "what is the weather today? ok" = Topic.informational ∧
    classify "what is the weather today? ok" ≠ Topic.conversational := by decide

/-- C10 (amended): casual detection is substring containment with no length
bound: any message containing a casual word as a substring, with no
help-seeking phrase, no spiritual term, and matching no prayer or
informational keyword, is classified `conversational` regardless of its
length. -/
theorem casual_substring_conversational (m : String)
    (h1 : containsCasualWord m = true) (h2 : indicatesNeedForHelp m = false)
    (h3 : isSpiritualContext m = false) (h4 : isPrayerRequest m = false)
    (h5 : isInformationalRequest m = false) :
    classify m = Topic.conversational := by
  simp [classify, h4, h5, isCasualMessage, h1, h2, h3]

/-- A long multi-word sentence whose only casual trigger is the substring
"ke" inside "like" is classified conversational. -/
theorem casual_substring_conversational_witness :
    containsCasualWord "i like turtles quite a lot indeed" = true ∧
    isVeryShortMessage "i like turtles quite a lot indeed" = false ∧
    isSingleWord "i like turtles quite a lot indeed" = false ∧
    classify "i like turtles quite a lot indeed" = Topic.conversational :=
  ⟨by decide, by decide, by decide,
    casual_substring_conversational _ (by decide) (by decide) (by decide)
      (by decide) (by decide)⟩

/-- Flooring to a multiple does not increase the value. -/
theorem div_mul_le (x m : Nat) : x / m * m ≤ x :=
  Nat.div_mul_le_self x m

/-- The next multiple after flooring lies strictly beyond the value. -/
theorem lt_div_mul_add {x m : Nat} (hm : 0 < m) : x < x / m * m + m := by
  conv_lhs => rw [← Nat.div_add_mod x m]
  rw [Nat.mul_comm]
  exact Nat.add_lt_add_left (Nat.mod_lt x hm) _

/-- A multiple of `m` below `x` stays below the floor of `x` to a multiple. -/
theorem mult_le_div_mul {k m x : Nat} (hk : 0 < k) (hmod : m % k = 0) (hle : m ≤ x) :
    m ≤ x / k * k := by
  obtain ⟨a, rfl⟩ : k ∣ m := Nat.dvd_of_mod_eq_zero hmod
  have ha : a ≤ x / k := (Nat.le_div_iff_mul_le hk).mpr (by rwa [Nat.mul_comm] at hle)
  calc k * a = a * k := Nat.mul_comm k a
    _ ≤ x / k * k := Nat.mul_le_mul_right k ha

/-- Distinct multiples of `k` are at least `k` apart. -/
theorem mult_add_le_mult {k w v : Nat} (hw : w % k = 0) (hv : v % k = 0) (hlt : w < v) :
    w + k ≤ v := by
  obtain ⟨a, rfl⟩ : k ∣ w := Nat.dvd_of_mod_eq_zero hw
  obtain ⟨b, rfl⟩ : k ∣ v := Nat.dvd_of_mod_eq_zero hv
  have hab : a < b := Nat.lt_of_mul_lt_mul_left hlt
  calc k * a + k = k * (a + 1) := by ring
    _ ≤ k * b := Nat.mul_le_mul_left k hab

/-- The computed short-window start never exceeds the current time. -/
theorem alignedWindowStart_le (now : Nat) : alignedWindowStart now ≤ now :=
  div_mul_le now RATE_LIMITS.windowMs

/-- The current time lies inside its computed short window. -/
theorem lt_alignedWindowStart_add (now : Nat) :
    now < alignedWindowStart now + RATE_LIMITS.windowMs :=
  lt_div_mul_add (by decide)

/-- Computed short-window starts are aligned. -/
theorem alignedWindowStart_mod (now : Nat) :
    alignedWindowStart now % RATE_LIMITS.windowMs = 0 :=
  Nat.mul_mod_left _ _

/-- An aligned timestamp at most `now` is at most the computed window start. -/
theorem mult_le_alignedWindowStart {m now : Nat}
    (hmod : m % RATE_LIMITS.windowMs = 0) (hle : m ≤ now) :
    m ≤ alignedWindowStart now :=
  mult_le_div_mul (by decide) hmod hle

/-- Rollover of a well-formed record: the stored window start becomes the
computed one, and the burst counter survives exactly when the stored window
already was the computed one. -/
theorem rollover_fields (now : Nat) (ud : UserData)
    (hmod : ud.windowStart % RATE_LIMITS.windowMs = 0) (hle : ud.windowStart ≤ now) :
    (rollover now ud).windowStart = alignedWindowStart now ∧
    (rollover now ud).requests =
      (if ud.windowStart = alignedWindowStart now then ud.requests else 0) := by
  have h1 : ud.windowStart ≤ alignedWindowStart now := mult_le_alignedWindowStart hmod hle
  unfold rollover
  dsimp only
  rcases Nat.lt_or_ge ud.windowStart (alignedWindowStart now) with h | h
  · rw [if_pos h, if_neg (Nat.ne_of_lt h)]
    split <;> exact ⟨rfl, rfl⟩
  · have heq : ud.windowStart = alignedWindowStart now := Nat.le_antisymm h1 h
    rw [if_neg (by omega : ¬ ud.windowStart < alignedWindowStart now), if_pos heq]
    split <;> exact ⟨heq, rfl⟩

/-- Rollover never touches the burst counter except to reset it. -/
theorem rollover_requests_le (now : Nat) (ud : UserData) :
    (rollover now ud).requests ≤ ud.requests := by
  unfold rollover
  dsimp only
  split <;> split <;> simp

/-- Rollover of the fresh default record: all counters are zero and the
window start is the computed one. -/
theorem rollover_zero (now : Nat) :
    (rollover now zeroUserData).requests = 0 ∧
    (rollover now zeroUserData).dailyRequests = 0 ∧
    (rollover now zeroUserData).dailyCost = 0 ∧
    (rollover now zeroUserData).windowStart = alignedWindowStart now := by
  unfold rollover zeroUserData
  dsimp only
  split <;> split <;> refine ⟨rfl, rfl, rfl, ?_⟩ <;> (dsimp only; try omega)

/-- The decision component of `checkRateLimit` is exactly the three checks
applied to the rolled-over record. -/
theorem checkRateLimit_fst (store : Store) (uid : String) (now : Nat) :
    (checkRateLimit store uid now).fst =
      checkLimits now (rollover now ((store (userKey uid)).getD zeroUserData)) := by
  unfold checkRateLimit
  split <;> simp_all

/-- `checkRateLimit` leaves the record of every other caller untouched. -/
theorem checkRateLimit_snd_ne (store : Store) (uid : String) (now : Nat)
    {k : String} (hk : k ≠ userKey uid) :
    (checkRateLimit store uid now).snd k = store k := by
  unfold checkRateLimit
  split
  · simp [setStore, hk]
  · split
    · simp [setStore, hk]
    · rfl

/-- The rolled-over record of a first-time caller passes every check. -/
theorem checkLimits_rollover_zero (now : Nat) :
    checkLimits now (rollover now zeroUserData) = Decision.allowed := by
  have h := rollover_zero now
  unfold checkLimits
  rw [h.1, h.2.1, h.2.2.1]
  rw [if_neg (by decide), if_neg (by decide), if_neg (by decide)]

/-- On acceptance the stored record of the caller becomes the rolled-over record
with all three counters incremented. -/
theorem checkRateLimit_snd_key_allowed (store : Store) (uid : String) (now : Nat)
    (h : (checkRateLimit store uid now).fst = Decision.allowed) :
    (checkRateLimit store uid now).snd (userKey uid) =
      some (acceptUpdate (rollover now ((store (userKey uid)).getD zeroUserData))) := by
  rw [checkRateLimit_fst] at h
  unfold checkRateLimit
  rw [h]
  simp [setStore]

/-- On rejection the record of the caller existed already, and the store persists
exactly its rolled-over form: counters are not incremented, but window and
day rollovers are kept. -/
theorem checkRateLimit_snd_key_rejected (store : Store) (uid : String) (now : Nat)
    (h : (checkRateLimit store uid now).fst ≠ Decision.allowed) :
    (store (userKey uid)).isSome = true ∧
    (checkRateLimit store uid now).snd (userKey uid) =
      some (rollover now ((store (userKey uid)).getD zeroUserData)) := by
  have hfst := checkRateLimit_fst store uid now
  have hs : (store (userKey uid)).isSome = true := by
    by_contra hc
    have heq : store (userKey uid) = none := by
      cases hh : store (userKey uid) <;> simp_all
    rw [hfst, heq] at h
    exact h (checkLimits_rollover_zero now)
  refine ⟨hs, ?_⟩
  unfold checkRateLimit
  cases hd : checkLimits now (rollover now ((store (userKey uid)).getD zeroUserData))
  · rw [hfst, hd] at h
    exact absurd rfl h
  all_goals simp [hd, hs, setStore]

/-- A newer computed daily start resets both daily counters. -/
theorem rollover_daily_reset (now : Nat) (ud : UserData)
    (h : alignedDailyStart now > ud.dailyStart) :
    (rollover now ud).dailyRequests = 0 ∧ (rollover now ud).dailyCost = 0 := by
  unfold rollover
  dsimp only
  by_cases hw : alignedWindowStart now > ud.windowStart
  · rw [if_pos hw]
    dsimp only
    rw [if_pos h]
    exact ⟨rfl, rfl⟩
  · rw [if_neg hw]
    rw [if_pos h]
    exact ⟨rfl, rfl⟩

/-- C5: a call made exactly at `windowStart + windowMs` resets the stored
burst counter to 0, a call whose computed daily start is newer than the
stored one resets both daily counters to 0, and the limit checks are always
evaluated on the rolled-over record. -/
theorem rollover_resets_counters (ud : UserData) (now : Nat)
    (h : alignedDailyStart now > ud.dailyStart) :
    (rollover (ud.windowStart + RATE_LIMITS.windowMs) ud).requests = 0 ∧
    (rollover now ud).dailyRequests = 0 ∧
    (rollover now ud).dailyCost = 0 ∧
    ∀ store uid n, (checkRateLimit store uid n).fst =
      checkLimits n (rollover n ((store (userKey uid)).getD zeroUserData)) := by
  have hd := rollover_daily_reset now ud h
  refine ⟨?_, hd.1, hd.2, fun store uid n => checkRateLimit_fst store uid n⟩
  have hb : ud.windowStart < alignedWindowStart (ud.windowStart + RATE_LIMITS.windowMs) := by
    have h2 := @lt_div_mul_add (ud.windowStart + RATE_LIMITS.windowMs)
      RATE_LIMITS.windowMs (by decide)
    have hwm : RATE_LIMITS.windowMs = 120000 := rfl
    unfold alignedWindowStart
    rw [hwm] at h2 ⊢
    omega
  unfold rollover
  dsimp only
  rw [if_pos hb]
  split <;> rfl

/-- A day rollover at the first millisecond of day 1 resets the daily
counters of a mid-day-0 record, and the boundary call resets its burst
counter. -/
theorem rollover_resets_counters_witness :
    (rollover (ud5.windowStart + RATE_LIMITS.windowMs) ud5).requests = 0 ∧
    (rollover 86400000 ud5).dailyRequests = 0 ∧
    (rollover 86400000 ud5).dailyCost = 0 ∧
    (checkRateLimit emptyStore "u" 5).fst =
      checkLimits 5 (rollover 5 ((emptyStore (userKey "u")).getD zeroUserData)) := by
  have h := rollover_resets_counters ud5 86400000 (by decide)
  exact ⟨h.1, h.2.1, h.2.2.1, h.2.2.2 emptyStore "u" 5⟩

/-- C6: a `checkRateLimit` call mutates no record other than the one owned
by the caller; on rejection the counters are not incremented but the
rolled-over record (window and day rollovers included) is persisted, the
record having necessarily existed; on acceptance the record of the caller
becomes the rolled-over record with the three counters incremented. -/
theorem checkRateLimit_mutation_effects (store : Store) (uid : String) (now : Nat) :
    (∀ k, k ≠ userKey uid → (checkRateLimit store uid now).snd k = store k) ∧
    ((checkRateLimit store uid now).fst ≠ Decision.allowed →
      (store (userKey uid)).isSome = true ∧
      (checkRateLimit store uid now).snd (userKey uid) =
        some (rollover now ((store (userKey uid)).getD zeroUserData))) ∧
    ((checkRateLimit store uid now).fst = Decision.allowed →
      (checkRateLimit store uid now).snd (userKey uid) =
        some (acceptUpdate (rollover now ((store (userKey uid)).getD zeroUserData)))) :=
  ⟨fun _ hk => checkRateLimit_snd_ne store uid now hk,
   fun h => checkRateLimit_snd_key_rejected store uid now h,
   fun h => checkRateLimit_snd_key_allowed store uid now h⟩

/-- A burst-rejected call leaves the entry of another caller and the own
counters of the caller unchanged while persisting the rollover. -/
theorem checkRateLimit_mutation_effects_witness :
    (checkRateLimit store6 "u" 5).snd "v" = store6 "v" ∧
    (store6 (userKey "u")).isSome = true ∧
    (checkRateLimit store6 "u" 5).snd (userKey "u") =
      some (rollover 5 ((store6 (userKey "u")).getD zeroUserData)) := by
  have h := checkRateLimit_mutation_effects store6 "u" 5
  exact ⟨h.1 "v" (by decide), h.2.1 (by decide)⟩

/-- C8 (counterexample): a burst rejection at time 5 carries
`retryAfter = 120` seconds, which is not the raw millisecond difference
`windowStart + windowMs - now = 119995` the claim names. -/
theorem retryAfter_not_ms_difference :
    (checkRateLimit store6 "u" 5).fst = Decision.burstLimit 120 ∧
    120 ≠ alignedWindowStart 5 + RATE_LIMITS.windowMs - 5 := by decide

/-- C8 (amended): every burst rejection carries a retry-after equal to the
remaining window time `windowStart + windowMs - now` converted from
milliseconds to seconds and rounded up. -/
theorem retryAfter_ceil_seconds (store : Store) (uid : String) (now r : Nat)
    (h : (checkRateLimit store uid now).fst = Decision.burstLimit r) :
    r = (alignedWindowStart now + RATE_LIMITS.windowMs - now + 999) / 1000 := by
  rw [checkRateLimit_fst] at h
  unfold checkLimits at h
  split at h
  · injection h with h2
    exact h2.symm
  · split at h
    · exact absurd h (by simp)
    · split at h
      · exact absurd h (by simp)
      · exact absurd h (by simp)

/-- The burst rejection at time 5 carries exactly the ceiling-converted
seconds value. -/
theorem retryAfter_ceil_seconds_witness :
    (checkRateLimit store6 "u" 5).fst = Decision.burstLimit 120 ∧
    120 = (alignedWindowStart 5 + RATE_LIMITS.windowMs - 5 + 999) / 1000 :=
  ⟨by decide, retryAfter_ceil_seconds store6 "u" 5 120 (by decide)⟩

/-- Looking up a present record under the cleanup sweep reduces to the
staleness test. -/
theorem cleanup_lookup (store : Store) (now : Nat) (k : String) (ud : UserData)
    (h : store k = some ud) :
    cleanup store now k =
      (if ud.windowStart < now - hourMs ∧ ud.dailyStart < now - hourMs then none
       else some ud) := by
  unfold cleanup
  rw [h]

/-- C7 (counterexample): the 10:00 cleanup removes a record whose daily
window (day 0) is still active at `now`, erasing its 75 counted daily
requests; so active-daily-window records are not always preserved. -/
theorem cleanup_active_daily_removed :
    cleanup store7 36000000 "u" = none ∧
    36000000 < ud7.dailyStart + dayMs ∧
    ud7.dailyRequests = 75 := by decide

/-- C7 (amended): the sweep removes a stored record exactly when both its
`windowStart` and `dailyStart` are older than `now - hourMs`; every record
whose short burst window is still active at `now` is preserved, while a
record whose daily window is still active may nevertheless be removed. -/
theorem cleanup_removal_characterization (store : Store) (now : Nat) (k : String)
    (ud : UserData) (h : store k = some ud) :
    (cleanup store now k = none ↔
      (ud.windowStart < now - hourMs ∧ ud.dailyStart < now - hourMs)) ∧
    (now < ud.windowStart + RATE_LIMITS.windowMs → cleanup store now k = some ud) := by
  rw [cleanup_lookup store now k ud h]
  constructor
  · constructor
    · intro hn
      by_contra hc
      rw [if_neg hc] at hn
      exact Option.noConfusion hn
    · intro hc
      rw [if_pos hc]
  · intro hlt
    have hwm : RATE_LIMITS.windowMs = 120000 := rfl
    rw [hwm] at hlt
    have hws : ¬ ud.windowStart < now - hourMs := by
      have hh : hourMs = 3600000 := rfl
      rw [hh]
      omega
    rw [if_neg (fun hc => hws hc.1)]

/-- The sweep removes the stale early-morning record and preserves a record
whose burst window is still active. -/
theorem cleanup_removal_characterization_witness :
    cleanup store7 36000000 "u" = none ∧
    cleanup store7b 35999999 "u" = some ud7b := by
  constructor
  · exact ((cleanup_removal_characterization store7 36000000 "u" ud7 (by decide)).1).mpr
      (by decide)
  · exact (cleanup_removal_characterization store7b 35999999 "u" ud7b (by decide)).2
      (by decide)

/-- Store well-formedness is monotone in the time bound. -/
theorem goodStore_mono {t u : Nat} {s : Store} (h : t ≤ u) (hg : GoodStore t s) :
    GoodStore u s :=
  fun k ud hk => ⟨(hg k ud hk).1, (hg k ud hk).2.1, Nat.le_trans (hg k ud hk).2.2 h⟩

/-- The empty store is well formed. -/
theorem goodStore_empty : GoodStore 0 emptyStore :=
  fun _ _ hk => Option.noConfusion hk

/-- Characterize `windowCount` on a present record. -/
theorem windowCount_eq_of_lookup {s : Store} {k : String} {ud : UserData}
    (h : s k = some ud) (w : Nat) :
    windowCount s k w = (if ud.windowStart = w then ud.requests else 0) := by
  unfold windowCount
  rw [h]

/-- A well-formed store records at most the burst limit in any window. -/
theorem windowCount_le {t : Nat} {s : Store} (hg : GoodStore t s) (k : String) (w : Nat) :
    windowCount s k w ≤ RATE_LIMITS.maxRequests := by
  cases hk : s k
  · unfold windowCount
    rw [hk]
    exact Nat.zero_le _
  · rename_i ud
    rw [windowCount_eq_of_lookup hk]
    split
    · exact (hg k ud hk).1
    · exact Nat.zero_le _

/-- `windowCount` depends only on the own entry of the caller. -/
theorem windowCount_congr {s1 s2 : Store} (k : String) (h : s1 k = s2 k) (w : Nat) :
    windowCount s1 k w = windowCount s2 k w := by
  unfold windowCount
  rw [h]

/-- A check that comes out allowed saw a burst counter below the limit. -/
theorem checkLimits_allowed_lt {now : Nat} {ud : UserData}
    (h : checkLimits now ud = Decision.allowed) :
    ud.requests < RATE_LIMITS.maxRequests := by
  unfold checkLimits at h
  rcases Nat.lt_or_ge ud.requests RATE_LIMITS.maxRequests with hlt | hge
  · exact hlt
  · rw [if_pos hge] at h
    exact absurd h (by simp)

/-- The cleanup sweep preserves store well-formedness. -/
theorem goodStore_cleanup {t : Nat} {s : Store} (hg : GoodStore t s) {now : Nat}
    (h : t ≤ now) : GoodStore now (cleanup s now) := by
  intro k ud hk
  unfold cleanup at hk
  cases hs : s k
  · rw [hs] at hk
    exact Option.noConfusion hk
  · rename_i ud2
    rw [hs] at hk
    dsimp only at hk
    split at hk
    · exact Option.noConfusion hk
    · injection hk with h2
      have hv := hg k ud2 hs
      rw [← h2]
      exact ⟨hv.1, hv.2.1, Nat.le_trans hv.2.2 h⟩

/-- A request evaluation preserves store well-formedness. -/
theorem goodStore_request {t : Nat} {s : Store} (hg : GoodStore t s) (uid : String)
    (now : Nat) (h : t ≤ now) : GoodStore now ((checkRateLimit s uid now).snd) := by
  intro k ud hk
  by_cases hkey : k = userKey uid
  · rw [hkey] at hk
    have hud0 : ((s (userKey uid)).getD zeroUserData).requests ≤ RATE_LIMITS.maxRequests ∧
        ((s (userKey uid)).getD zeroUserData).windowStart % RATE_LIMITS.windowMs = 0 ∧
        ((s (userKey uid)).getD zeroUserData).windowStart ≤ now := by
      cases hs : s (userKey uid)
      · exact ⟨by decide, by decide, Nat.zero_le _⟩
      · rename_i v
        have hv := hg (userKey uid) v hs
        exact ⟨hv.1, hv.2.1, Nat.le_trans hv.2.2 h⟩
    have hroll := rollover_fields now ((s (userKey uid)).getD zeroUserData) hud0.2.1 hud0.2.2
    by_cases hall : (checkRateLimit s uid now).fst = Decision.allowed
    · rw [checkRateLimit_snd_key_allowed s uid now hall] at hk
      injection hk with h2
      subst h2
      have hlt : (rollover now ((s (userKey uid)).getD zeroUserData)).requests <
          RATE_LIMITS.maxRequests := by
        have hfst := checkRateLimit_fst s uid now
        rw [hall] at hfst
        exact checkLimits_allowed_lt hfst.symm
      refine ⟨?_, ?_, ?_⟩
      · show (rollover now ((s (userKey uid)).getD zeroUserData)).requests + 1 ≤ _
        omega
      · show (rollover now ((s (userKey uid)).getD zeroUserData)).windowStart % _ = 0
        rw [hroll.1]
        exact alignedWindowStart_mod now
      · show (rollover now ((s (userKey uid)).getD zeroUserData)).windowStart ≤ now
        rw [hroll.1]
        exact alignedWindowStart_le now
    · have hrej := checkRateLimit_snd_key_rejected s uid now hall
      rw [hrej.2] at hk
      injection hk with h2
      subst h2
      refine ⟨?_, ?_, ?_⟩
      · rw [hroll.2]
        split
        · exact hud0.1
        · exact Nat.zero_le _
      · rw [hroll.1]
        exact alignedWindowStart_mod now
      · rw [hroll.1]
        exact alignedWindowStart_le now
  · rw [checkRateLimit_snd_ne s uid now hkey] at hk
    have hv := hg k ud hk
    exact ⟨hv.1, hv.2.1, Nat.le_trans hv.2.2 h⟩

/-- One event preserves store well-formedness up to its own time. -/
theorem goodStore_step {t : Nat} {s : Store} (hg : GoodStore t s) (e : Event)
    (h : t ≤ e.time) : GoodStore e.time (stepStore s e) := by
  cases e
  · exact goodStore_request hg _ _ h
  · exact goodStore_cleanup hg h

/-- Running a time-ordered trace preserves store well-formedness. -/
theorem goodStore_run (es : List Event) : ∀ (t : Nat) (s : Store),
    monotimes t es = true → GoodStore t s →
    GoodStore (lastTime t es) (runTrace s es) := by
  induction es with
  | nil => exact fun t s _ hg => hg
  | cons e es IH =>
      intro t s hm hg
      unfold monotimes at hm
      rw [Bool.and_eq_true, decide_eq_true_eq] at hm
      exact IH e.time (stepStore s e) hm.2 (goodStore_step hg e hm.1)

/-- The record `checkRateLimit` evaluates sits in the computed window and
carries exactly the count the store attributes to that window. -/
theorem rolled_spec {t : Nat} {s : Store} (hg : GoodStore t s) (uid : String)
    (now : Nat) (ht : t ≤ now) :
    (rollover now ((s (userKey uid)).getD zeroUserData)).windowStart =
      alignedWindowStart now ∧
    (rollover now ((s (userKey uid)).getD zeroUserData)).requests =
      windowCount s (userKey uid) (alignedWindowStart now) := by
  cases hs : s (userKey uid)
  · have hz := rollover_zero now
    rw [Option.getD_none]
    refine ⟨hz.2.2.2, ?_⟩
    rw [hz.1]
    unfold windowCount
    rw [hs]
  · rename_i v
    have hv := hg (userKey uid) v hs
    have hroll := rollover_fields now v hv.2.1 (Nat.le_trans hv.2.2 ht)
    rw [Option.getD_some]
    refine ⟨hroll.1, ?_⟩
    rw [hroll.2, windowCount_eq_of_lookup hs]

/-- In a well-formed store, a window that is still open at `now` but is not
the computed current window has no recorded count. -/
theorem windowCount_ne_aligned {t : Nat} {s : Store} (hg : GoodStore t s) (k : String)
    {w now : Nat} (ht : t ≤ now) (hlive : now < w + RATE_LIMITS.windowMs)
    (hne : w ≠ alignedWindowStart now) : windowCount s k w = 0 := by
  cases hs : s k
  · unfold windowCount
    rw [hs]
  · rename_i v
    rw [windowCount_eq_of_lookup hs]
    rw [if_neg ?hcond]
    case hcond =>
      intro hveq
      have hv := hg k v hs
      have hle : v.windowStart ≤ alignedWindowStart now :=
        mult_le_alignedWindowStart hv.2.1 (Nat.le_trans hv.2.2 ht)
      have hwmod : w % RATE_LIMITS.windowMs = 0 := by
        rw [← hveq]
        exact hv.2.1
      have hwle : w ≤ alignedWindowStart now := by
        rw [← hveq]
        exact hle
      have hwlt : w < alignedWindowStart now := Nat.lt_of_le_of_ne hwle hne
      have hsep : w + RATE_LIMITS.windowMs ≤ alignedWindowStart now :=
        mult_add_le_mult hwmod (alignedWindowStart_mod now) hwlt
      have halle := alignedWindowStart_le now
      omega

/-- The cleanup sweep does not change the count of any window that is still
open at sweep time. -/
theorem windowCount_sweep (s : Store) (now : Nat) (k : String) {w : Nat}
    (hlive : now < w + RATE_LIMITS.windowMs) :
    windowCount (cleanup s now) k w = windowCount s k w := by
  cases hs : s k
  · unfold windowCount cleanup
    rw [hs]
  · rename_i v
    by_cases hst : v.windowStart < now - hourMs ∧ v.dailyStart < now - hourMs
    · have hlk : cleanup s now k = none := by
        rw [cleanup_lookup s now k v hs, if_pos hst]
      unfold windowCount
      rw [hlk, hs]
      dsimp only
      rw [if_neg ?hcond]
      case hcond =>
        intro hc
        have h1 := hst.1
        rw [hc] at h1
        have hwm : RATE_LIMITS.windowMs = 120000 := rfl
        have hh : hourMs = 3600000 := rfl
        rw [hwm] at hlive
        rw [hh] at h1
        omega
    · have hlk : cleanup s now k = some v := by
        rw [cleanup_lookup s now k v hs, if_neg hst]
      rw [windowCount_eq_of_lookup hlk, windowCount_eq_of_lookup hs]

/-- One request evaluation raises the recorded count of a still-open window
by exactly its own contribution: one for an accepted request falling in that
window, zero otherwise. -/
theorem windowCount_request {t : Nat} {s : Store} (hg : GoodStore t s) (uid : String)
    (now : Nat) (ht : t ≤ now) (k : String) {w : Nat}
    (hlive : now < w + RATE_LIMITS.windowMs) :
    windowCount ((checkRateLimit s uid now).snd) k w =
      windowCount s k w +
      (if userKey uid = k ∧ alignedWindowStart now = w ∧
          (checkRateLimit s uid now).fst = Decision.allowed then 1 else 0) := by
  by_cases hkey : k = userKey uid
  case neg =>
    rw [windowCount_congr k (checkRateLimit_snd_ne s uid now hkey) w]
    rw [if_neg (fun hc => hkey hc.1.symm), Nat.add_zero]
  case pos =>
    subst hkey
    by_cases hw : alignedWindowStart now = w
    · subst hw
      have hr := rolled_spec hg uid now ht
      by_cases hall : (checkRateLimit s uid now).fst = Decision.allowed
      · rw [windowCount_eq_of_lookup (checkRateLimit_snd_key_allowed s uid now hall)]
        rw [if_pos (show (acceptUpdate (rollover now
          ((s (userKey uid)).getD zeroUserData))).windowStart =
            alignedWindowStart now from hr.1)]
        rw [if_pos ⟨rfl, rfl, hall⟩]
        show (rollover now ((s (userKey uid)).getD zeroUserData)).requests + 1 =
          windowCount s (userKey uid) (alignedWindowStart now) + 1
        rw [hr.2]
      · have hrej := checkRateLimit_snd_key_rejected s uid now hall
        rw [windowCount_eq_of_lookup hrej.2]
        rw [if_pos hr.1]
        rw [if_neg (fun hc => hall hc.2.2), Nat.add_zero]
        exact hr.2
    · have hne : w ≠ alignedWindowStart now := fun he => hw he.symm
      rw [if_neg (fun hc => hw hc.2.1), Nat.add_zero]
      rw [windowCount_ne_aligned hg (userKey uid) ht hlive hne]
      by_cases hall : (checkRateLimit s uid now).fst = Decision.allowed
      · rw [windowCount_eq_of_lookup (checkRateLimit_snd_key_allowed s uid now hall)]
        rw [if_neg ?hc1]
        case hc1 =>
          intro hc
          apply hne
          rw [← hc]
          exact (rolled_spec hg uid now ht).1
      · have hrej := checkRateLimit_snd_key_rejected s uid now hall
        rw [windowCount_eq_of_lookup hrej.2]
        rw [if_neg ?hc2]
        case hc2 =>
          intro hc
          apply hne
          rw [← hc]
          exact (rolled_spec hg uid now ht).1

/-- Main short-window invariant: along any time-ordered trace from a
well-formed store, the accepted requests of key `k` falling in window `w`
plus the count already recorded never exceed the burst limit while the
window is open, and no request is accepted into a window that has already
closed. -/
theorem acceptsInWindow_bound (k : String) (w : Nat) (es : List Event) :
    ∀ (t : Nat) (s : Store), monotimes t es = true → GoodStore t s →
      (t < w + RATE_LIMITS.windowMs →
        acceptsInWindow k w s es + windowCount s k w ≤ RATE_LIMITS.maxRequests) ∧
      (w + RATE_LIMITS.windowMs ≤ t → acceptsInWindow k w s es = 0) := by
  induction es with
  | nil =>
      intro t s _ hg
      constructor
      · intro _
        show 0 + windowCount s k w ≤ RATE_LIMITS.maxRequests
        rw [Nat.zero_add]
        exact windowCount_le hg k w
      · intro _
        rfl
  | cons e es IH =>
      intro t s hm hg
      unfold monotimes at hm
      rw [Bool.and_eq_true, decide_eq_true_eq] at hm
      obtain ⟨ht, hmrest⟩ := hm
      cases e with
      | request uid now =>
          have hg2 : GoodStore now ((checkRateLimit s uid now).snd) :=
            goodStore_request hg uid now ht
          have IH2 := IH now ((checkRateLimit s uid now).snd) hmrest hg2
          constructor
          · intro hlivet
            show (if userKey uid = k ∧ alignedWindowStart now = w ∧
                (checkRateLimit s uid now).fst = Decision.allowed then 1 else 0) +
              acceptsInWindow k w ((checkRateLimit s uid now).snd) es +
              windowCount s k w ≤ RATE_LIMITS.maxRequests
            rcases Nat.lt_or_ge now (w + RATE_LIMITS.windowMs) with hlive | hdead
            · have hstep := windowCount_request hg uid now ht k hlive
              have h1 := IH2.1 hlive
              omega
            · have h0 := IH2.2 hdead
              have hc : ¬(userKey uid = k ∧ alignedWindowStart now = w ∧
                  (checkRateLimit s uid now).fst = Decision.allowed) := by
                rintro ⟨-, hw2, -⟩
                have hin := lt_alignedWindowStart_add now
                rw [hw2] at hin
                omega
              rw [if_neg hc, h0]
              have hb := windowCount_le hg k w
              omega
          · intro hdeadt
            have hdead : w + RATE_LIMITS.windowMs ≤ now := Nat.le_trans hdeadt ht
            have h0 := IH2.2 hdead
            have hc : ¬(userKey uid = k ∧ alignedWindowStart now = w ∧
                (checkRateLimit s uid now).fst = Decision.allowed) := by
              rintro ⟨-, hw2, -⟩
              have hin := lt_alignedWindowStart_add now
              rw [hw2] at hin
              omega
            show (if userKey uid = k ∧ alignedWindowStart now = w ∧
                (checkRateLimit s uid now).fst = Decision.allowed then 1 else 0) +
              acceptsInWindow k w ((checkRateLimit s uid now).snd) es = 0
            rw [if_neg hc, h0]
      | sweep now =>
          have hg2 : GoodStore now (cleanup s now) := goodStore_cleanup hg ht
          have IH2 := IH now (cleanup s now) hmrest hg2
          constructor
          · intro hlivet
            show acceptsInWindow k w (cleanup s now) es + windowCount s k w ≤
              RATE_LIMITS.maxRequests
            rcases Nat.lt_or_ge now (w + RATE_LIMITS.windowMs) with hlive | hdead
            · have hstep := windowCount_sweep s now k hlive
              have h1 := IH2.1 hlive
              omega
            · have h0 := IH2.2 hdead
              rw [h0]
              have hb := windowCount_le hg k w
              omega
          · intro hdeadt
            exact IH2.2 (Nat.le_trans hdeadt ht)

/-- Along a time-ordered trace that ends before window `w` closes, the final
recorded count of `w` is its initial count plus every accepted request
falling in `w`. -/
theorem windowCount_run (k : String) {w : Nat} (T : Nat) (es : List Event) :
    ∀ (t : Nat) (s : Store), monotimes t es = true → withinTime T es = true →
      GoodStore t s → T < w + RATE_LIMITS.windowMs →
      windowCount (runTrace s es) k w = windowCount s k w + acceptsInWindow k w s es := by
  induction es with
  | nil =>
      intro t s _ _ _ _
      show windowCount s k w = windowCount s k w + 0
      rw [Nat.add_zero]
  | cons e es IH =>
      intro t s hm hw hg hT
      unfold monotimes at hm
      rw [Bool.and_eq_true, decide_eq_true_eq] at hm
      obtain ⟨ht, hmrest⟩ := hm
      unfold withinTime at hw
      rw [List.all_cons, Bool.and_eq_true, decide_eq_true_eq] at hw
      obtain ⟨hwt, hwrest⟩ := hw
      cases e with
      | request uid now =>
          have hlive : now < w + RATE_LIMITS.windowMs := Nat.lt_of_le_of_lt hwt hT
          have hg2 : GoodStore now ((checkRateLimit s uid now).snd) :=
            goodStore_request hg uid now ht
          have hrun := IH now ((checkRateLimit s uid now).snd) hmrest hwrest hg2 hT
          have hstep := windowCount_request hg uid now ht k hlive
          show windowCount (runTrace ((checkRateLimit s uid now).snd) es) k w =
            windowCount s k w +
            ((if userKey uid = k ∧ alignedWindowStart now = w ∧
                (checkRateLimit s uid now).fst = Decision.allowed then 1 else 0) +
              acceptsInWindow k w ((checkRateLimit s uid now).snd) es)
          rw [hrun, hstep]
          omega
      | sweep now =>
          have hlive : now < w + RATE_LIMITS.windowMs := Nat.lt_of_le_of_lt hwt hT
          have hg2 : GoodStore now (cleanup s now) := goodStore_cleanup hg ht
          have hrun := IH now (cleanup s now) hmrest hwrest hg2 hT
          have hstep := windowCount_sweep s now k hlive
          show windowCount (runTrace (cleanup s now) es) k w =
            windowCount s k w + acceptsInWindow k w (cleanup s now) es
          rw [hrun, hstep]

/-- C1: along any time-ordered trace of request evaluations and cleanup
sweeps starting from the empty store, (1) at most `maxRequests = 20`
requests of any caller are accepted into any one short window, (2) the
stored burst counter never exceeds 20, and (3) a further request of the same
caller falling in a window that already accepted 20 is rejected with the
burst-limit decision carrying the retry-after seconds. -/
theorem evaluate_burst_window_bound (k : String) (w : Nat) (es : List Event)
    (hm : monotimes 0 es = true) :
    acceptsInWindow k w emptyStore es ≤ RATE_LIMITS.maxRequests ∧
    (∀ k2 ud, runTrace emptyStore es k2 = some ud →
      ud.requests ≤ RATE_LIMITS.maxRequests) ∧
    (∀ uid now T, withinTime T es = true → T ≤ now → alignedWindowStart now = w →
      userKey uid = k → acceptsInWindow k w emptyStore es = RATE_LIMITS.maxRequests →
      (checkRateLimit (runTrace emptyStore es) uid now).fst =
        Decision.burstLimit ((w + RATE_LIMITS.windowMs - now + 999) / 1000)) := by
  refine ⟨?_, ?_, ?_⟩
  · have h := (acceptsInWindow_bound k w es 0 emptyStore hm goodStore_empty).1
      (by have : (0:Nat) < RATE_LIMITS.windowMs := by decide
          omega)
    have h0 : windowCount emptyStore k w = 0 := rfl
    omega
  · intro k2 ud hk
    exact (goodStore_run es 0 emptyStore hm goodStore_empty k2 ud hk).1
  · intro uid now T hwT hTn hal huk hacc
    have hnlive : now < w + RATE_LIMITS.windowMs := by
      have hin := lt_alignedWindowStart_add now
      rw [hal] at hin
      exact hin
    have hT : T < w + RATE_LIMITS.windowMs := Nat.lt_of_le_of_lt hTn hnlive
    have hrun := windowCount_run k T es 0 emptyStore hm hwT goodStore_empty hT
    have h0 : windowCount emptyStore k w = 0 := rfl
    rw [h0, hacc, Nat.zero_add] at hrun
    have hfin : ∃ ud, runTrace emptyStore es k = some ud ∧ ud.windowStart = w ∧
        ud.requests = RATE_LIMITS.maxRequests := by
      cases hk2 : runTrace emptyStore es k
      · unfold windowCount at hrun
        rw [hk2] at hrun
        dsimp only at hrun
        exact absurd hrun (by decide)
      · rename_i ud
        rw [windowCount_eq_of_lookup hk2] at hrun
        split at hrun
        · rename_i hws
          exact ⟨ud, rfl, hws, hrun⟩
        · exact absurd hrun (by decide)
    obtain ⟨ud, hk2, hws, hreq⟩ := hfin
    rw [checkRateLimit_fst, huk, hk2, Option.getD_some]
    have hroll_req : (rollover now ud).requests = ud.requests := by
      have hale : alignedWindowStart now = ud.windowStart := by
        rw [hal, hws]
      have hnotlt : ¬ alignedWindowStart now > ud.windowStart := by omega
      unfold rollover
      dsimp only
      rw [if_neg hnotlt]
      split <;> rfl
    have hbst : checkLimits now (rollover now ud) =
        Decision.burstLimit
          ((alignedWindowStart now + RATE_LIMITS.windowMs - now + 999) / 1000) := by
      unfold checkLimits
      rw [if_pos (by rw [hroll_req, hreq])]
    rw [hbst, hal]

/-- Twenty accepted requests exactly fill the first burst window of caller
`"u"`, and a twenty-first call at time 5 is rejected with `retryAfter = 120`
seconds. -/
theorem evaluate_burst_window_bound_witness :
    acceptsInWindow "u" 0 emptyStore c1trace = RATE_LIMITS.maxRequests ∧
    (checkRateLimit (runTrace emptyStore c1trace) "u" 5).fst =
      Decision.burstLimit ((0 + RATE_LIMITS.windowMs - 5 + 999) / 1000) := by
  have h := evaluate_burst_window_bound "u" 0 c1trace (by decide)
  exact ⟨by decide,
    h.2.2 "u" 5 0 (by decide) (by decide) (by decide) (by decide) (by decide)⟩
